import Mathlib

/-!
Verification of the crypto-strategy-backtester web layer against its
natural-language specification.

The repository is a Next.js application whose HTTP routes (dataset upload,
backtest invocation) and React presentation components are embedded here as
executable Lean functions.  JavaScript strings, numbers and objects are
modelled with `String`, `ℚ` (plus an IEEE-special-value wrapper where the
claims concern division by zero) and explicit structures; the asynchronous
child-process interaction of the backtest route is modelled by an explicit
`ChildOutcome` describing how the spawned python process behaves, and the
route handler is a pure function of the request, the generated unique id and
that outcome.  Filesystem effects are modelled by explicit effect lists and
by a store of written files threaded through the handlers.
-/

namespace Backtester

/-! ## Path handling (Node `path.join` / `path.extname` / `path.basename`)

Paths are modelled as lists of segments relative to `process.cwd()`.
`path.join` concatenates and then normalizes, resolving `.` and `..`
segments; `path.extname` returns the suffix of the basename from its last
dot, except that a dot at position 0 of the basename (a dotfile) does not
start an extension. -/

/-- Split a character list on a separator character; mirrors
`String.splitOn` with a one-character separator.  Implemented structurally
so that concrete runs reduce inside the kernel. -/
def splitCharsOn (sep : Char) : List Char → List (List Char)
  | [] => [[]]
  | c :: cs =>
      let r := splitCharsOn sep cs
      if c = sep then [] :: r
      else
        match r with
        | [] => [[c]]
        | g :: gs => (c :: g) :: gs

/-- Lower-case a string character by character (ASCII, as
`String.prototype.toLowerCase` behaves on filenames). -/
def lowerStr (s : String) : String := String.mk (s.toList.map Char.toLower)

/-- Split a path string on `/` into raw segments. -/
def splitSegs (s : String) : List String :=
  (splitCharsOn '/' s.toList).map (fun cs => String.mk cs)

/-- Node path normalization over segments: drop empty and `.` segments,
resolve `..` by removing the previous segment. -/
def normalizeSegs (segs : List String) : List String :=
  segs.foldl
    (fun acc seg =>
      if seg = "" ∨ seg = "." then acc
      else if seg = ".." then acc.dropLast
      else acc ++ [seg])
    []

/-- The posix path separator test. -/
def isSep (c : Char) : Bool := c == '/'

/-- Node basename/extname both scan the path from its end: trailing
directory separators are skipped first, then characters are collected up to
the next separator.  `lastComponentRev` performs that scan on the reversed
character list, returning the reversed last component (empty when the path
is empty or consists of separators only). -/
def lastComponentRev (rcs : List Char) : List Char :=
  (rcs.dropWhile isSep).takeWhile (fun c => !isSep c)

/-- The last portion of a path, ignoring trailing directory separators
(Node `path.basename`: `basename("x.csv/")` is `x.csv`, `basename("/")` is
empty). -/
def pathBasename (s : String) : String :=
  String.mk (lastComponentRev s.toList.reverse).reverse

/-- The extension of a reversed path component, continuing the reverse scan
of Node `path.extname`: everything from the first dot found (the last dot of
the component), except that a dot opening the component starts a dotfile
name, not an extension, and the component `..` has no extension. -/
def extnameRevCore (rcomp : List Char) : List Char :=
  let notDot := fun c => !(c == '.')
  match rcomp.dropWhile notDot with
  | [] => []
  | _ :: post =>
      if post = [] then []
      else if rcomp = ['.', '.'] then []
      else ((rcomp.takeWhile notDot) ++ ['.']).reverse

/-- Node `path.extname`: the extension of the last path component, trailing
separators ignored, from its last `.` to the end; empty when the component
has no dot, when its only relevant dot is its first character (dotfile
rule), or when the component is `..`. -/
def extname (s : String) : String :=
  String.mk (extnameRevCore (lastComponentRev s.toList.reverse))

/-- Case-insensitive suffix test, used to state the spec wording
"name ends in .csv (case-insensitively)". -/
def endsWithCI (s suffixStr : String) : Bool :=
  List.isPrefixOf ((lowerStr suffixStr).toList.reverse) ((lowerStr s).toList.reverse)

/-- Whether a client-supplied filename contains a path separator (the name a
file picker supplies never does; a crafted request can). -/
def hasSep (s : String) : Bool := s.toList.any isSep

example : pathBasename "x.csv/" = "x.csv" := by decide
example : pathBasename "a//" = "a" := by decide
example : pathBasename "/" = "" := by decide
example : pathBasename "a/b.csv" = "b.csv" := by decide
example : extname "x.csv/" = ".csv" := by decide
example : extname ".." = "" := by decide
example : extname "a/.." = "" := by decide
example : extname "..csv" = ".csv" := by decide
example : extname "x.." = "." := by decide
example : extname "foo." = "." := by decide
example : extname "a.b/c" = "" := by decide
example : extname "" = "" := by decide
example : extname "d.csv." = "." := by decide
example : extname "..//" = "" := by decide
example : extname ".CSV" = "" := by decide
example : extname "a..csv" = ".csv" := by decide

/-! ## A filesystem store for written files

`fs/promises.writeFile` creates the file or silently replaces an existing
file at the same path.  The store maps resolved paths (segment lists) to the
written bytes. -/

/-- File store: association list from resolved path to file bytes. -/
abbrev FileStore := List (List String × List Nat)

/-- `writeFile` semantics: replace the entry at `p` if present, else append. -/
def storeWrite : FileStore → List String → List Nat → FileStore
  | [], p, b => [(p, b)]
  | (q, ob) :: rest, p, b =>
      if q = p then (p, b) :: rest else (q, ob) :: storeWrite rest p b

/-- Look up the bytes stored at a path. -/
def storeLookup : FileStore → List String → Option (List Nat)
  | [], _ => none
  | (q, b) :: rest, p => if q = p then some b else storeLookup rest p

/-! ## The upload route (`src/app/api/upload/route.js`) -/

/-- The uploaded form file: client-supplied name and content bytes. -/
structure UploadFile where
  name : String
  bytes : List Nat
deriving DecidableEq, Repr

/-- Response of the upload route: success carries the original filename, the
byte count and the public path; failure carries a status and error text. -/
inductive UploadResult where
  | ok (filename : String) (size : Nat) (publicPath : String)
  | err (status : Nat) (error : String)
deriving DecidableEq, Repr

/-- Segments of the upload directory `path.join` of `process.cwd()` and `public/data`,
relative to the working directory. -/
def uploadDirSegs : List String := ["public", "data"]

/-- The path the upload route writes to:
`path.join(uploadDir, originalFilename)` with no sanitization of the name. -/
def resolvedUploadPath (name : String) : List String :=
  normalizeSegs (uploadDirSegs ++ splitSegs name)

/-- Whether a resolved path still lies under `public/data`. -/
def isUnderDataDir (p : List String) : Bool :=
  decide (p.take 2 = uploadDirSegs)

/-- The upload `POST` handler of `src/app/api/upload/route.js`: validates
that a file is present and that `path.extname(name).toLowerCase()` equals
`.csv`, then writes the bytes at the joined path and answers with the
filename, the byte count and the public path. -/
def uploadPOST (file : Option UploadFile) (store : FileStore) :
    UploadResult × FileStore :=
  match file with
  | none => (.err 400 "No file provided", store)
  | some f =>
      if lowerStr (extname f.name) ≠ ".csv" then
        (.err 400 "Only CSV files are allowed", store)
      else
        (.ok f.name f.bytes.length ("/data/" ++ f.name),
         storeWrite store (resolvedUploadPath f.name) f.bytes)

example : extname "../evil.csv" = ".csv" := by decide
example : extname ".csv" = "" := by decide
example : extname "Prices.CSV" = ".CSV" := by decide
example : resolvedUploadPath "../evil.csv" = ["public", "evil.csv"] := by decide
example : endsWithCI ".csv" ".csv" = true := by decide

/-! ## JavaScript values reaching the metrics panel
(`src/components/metrics-panel.jsx`)

A report field delivered to the panel is `undefined`, `null`, a number or
some other (string) value; numbers are modelled as exact rationals. -/

/-- A JavaScript value as consumed by `formatNumber`. -/
inductive JsVal where
  | undef
  | null
  | num (q : ℚ)
  | str (s : String)
deriving DecidableEq, Repr

/-- Left-pad a digit string with zeros to width `n`. -/
def padLeftZeros (s : String) (n : Nat) : String :=
  if s.length ≥ n then s
  else String.mk (List.replicate (n - s.length) '0') ++ s

/-- Assemble a decimal string from a sign, a scaled magnitude `n` (the value
times `10 ^ d`, already rounded) and the digit count `d`. -/
def decimalString (neg : Bool) (n d : Nat) : String :=
  (if neg then "-" else "") ++ toString (n / 10 ^ d) ++
    (if d = 0 then "" else "." ++ padLeftZeros (toString (n % 10 ^ d)) d)

/-- `Number.prototype.toFixed(d)` over the exact rational value: round the
magnitude to `d` decimal digits (half away from zero on the exact value; the
engine rounds the underlying binary double, which agrees away from binary
ties) and keep the sign of a negative input. -/
def jsToFixed (d : Nat) (q : ℚ) : String :=
  decimalString (decide (q < 0)) (Int.toNat ⌊|q| * (10 : ℚ) ^ d + 1/2⌋) d

/-- `formatNumber` of `src/components/metrics-panel.jsx`: `undefined` and
`null` become the literal string `N/A`; a number is prefixed/suffixed around
`value.toFixed(decimals)`; any other value is returned as-is.  The function
is total: the absent value never raises. -/
def formatNumber (value : JsVal) (decimals : Nat) (pre suf : String) : String :=
  match value with
  | .undef => "N/A"
  | .null => "N/A"
  | .num q => pre ++ jsToFixed decimals q ++ suf
  | .str s => s

/-- The report object handed to `MetricsPanel` as `metrics`; every statistic
may in principle be absent or null on the wire. -/
structure Report where
  total_return : JsVal
  annual_return : JsVal
  max_drawdown : JsVal
  sharpe_ratio : JsVal
  calmar_ratio : JsVal
  win_rate : JsVal
  total_trades : JsVal
  avg_win_loss_ratio : JsVal
  initial_capital : JsVal
  final_capital : JsVal
deriving DecidableEq, Repr

/-- The rendered value of the `Avg Win/Loss Ratio` entry of `metricsData`:
`formatNumber(metrics.avg_win_loss_ratio, 2)` (default empty prefix and
suffix). -/
def metricsPanelAvgWinLoss (m : Report) : String :=
  formatNumber m.avg_win_loss_ratio 2 "" ""

example : jsToFixed 2 (7/2) = "3.50" := by
  rw [jsToFixed,
    show (⌊|(7 : ℚ)/2| * (10 : ℚ) ^ 2 + 1/2⌋ : ℤ) = 350 by
      rw [show |(7 : ℚ)/2| = 7/2 from abs_of_nonneg (by norm_num),
        Int.floor_eq_iff]
      norm_num,
    show (decide ((7 : ℚ)/2 < 0)) = false by norm_num]
  decide

example : jsToFixed 2 (-1/1000) = "-0.00" := by
  rw [jsToFixed,
    show (⌊|(-1 : ℚ)/1000| * (10 : ℚ) ^ 2 + 1/2⌋ : ℤ) = 0 by
      rw [show |(-1 : ℚ)/1000| = 1/1000 by rw [abs_of_nonpos (by norm_num)] ; norm_num,
        Int.floor_eq_iff]
      norm_num,
    show (decide ((-1 : ℚ)/1000 < 0)) = true by norm_num]
  decide

/-! ## JavaScript number semantics for the equity curve
(`src/components/equity-curve.jsx`)

The claims about the equity-curve view concern division by zero, so numbers
are modelled as finite rationals extended with the IEEE special values the
relevant JS operations can produce.  Negative zero is not distinguished from
zero (no claim depends on it). -/

/-- A JS number: finite, one of the infinities, or `NaN`. -/
inductive JsNum where
  | fin (q : ℚ)
  | posInf
  | negInf
  | nan
deriving DecidableEq, Repr

/-- Whether a JS number is finite (`Number.isFinite`). -/
def JsNum.isFinite : JsNum → Bool
  | .fin _ => true
  | _ => false

/-- JS subtraction on the model. -/
def jsSub : JsNum → JsNum → JsNum
  | .fin a, .fin b => .fin (a - b)
  | .fin _, .posInf => .negInf
  | .fin _, .negInf => .posInf
  | .posInf, .fin _ => .posInf
  | .negInf, .fin _ => .negInf
  | .posInf, .negInf => .posInf
  | .negInf, .posInf => .negInf
  | .posInf, .posInf => .nan
  | .negInf, .negInf => .nan
  | .nan, _ => .nan
  | _, .nan => .nan

/-- JS division on the model: a nonzero finite value divided by zero gives a
signed infinity, `0/0` gives `NaN`. -/
def jsDiv : JsNum → JsNum → JsNum
  | .nan, _ => .nan
  | _, .nan => .nan
  | .fin a, .fin b =>
      if b = 0 then
        if 0 < a then .posInf else if a < 0 then .negInf else .nan
      else .fin (a / b)
  | .posInf, .fin b => if b < 0 then .negInf else .posInf
  | .negInf, .fin b => if b < 0 then .posInf else .negInf
  | .fin _, .posInf => .fin 0
  | .fin _, .negInf => .fin 0
  | _, _ => .nan

/-- JS multiplication on the model. -/
def jsMul : JsNum → JsNum → JsNum
  | .nan, _ => .nan
  | _, .nan => .nan
  | .fin a, .fin b => .fin (a * b)
  | .posInf, .fin b => if 0 < b then .posInf else if b < 0 then .negInf else .nan
  | .negInf, .fin b => if 0 < b then .negInf else if b < 0 then .posInf else .nan
  | .fin a, .posInf => if 0 < a then .posInf else if a < 0 then .negInf else .nan
  | .fin a, .negInf => if 0 < a then .negInf else if a < 0 then .posInf else .nan
  | .posInf, .posInf => .posInf
  | .negInf, .negInf => .posInf
  | .posInf, .negInf => .negInf
  | .negInf, .posInf => .negInf

/-- JS truthiness of a number: `0` and `NaN` are falsy. -/
def jsTruthy : JsNum → Bool
  | .fin q => decide (q ≠ 0)
  | .nan => false
  | _ => true

/-- One element of the `equity_curve` array given to `EquityCurve` as
`data`; the `equity` field may be absent (`undefined`). -/
structure EqPoint where
  datetime : String
  equity : Option JsNum
deriving DecidableEq, Repr

/-- One element of `processedData` / `chartData`. -/
structure ChartPoint where
  date : String
  equity : Option JsNum
  percentChange : JsNum
deriving DecidableEq, Repr

/-- `x || 0`: the value when truthy, else `0`; an absent value is falsy. -/
def jsOrZero : Option JsNum → JsNum
  | some v => if jsTruthy v then v else .fin 0
  | none => .fin 0

/-- An absent operand participates in arithmetic as `NaN`
(`undefined - x` is `NaN`). -/
def toNum : Option JsNum → JsNum
  | some v => v
  | none => .nan

/-- `((point.equity - initialEquity) / initialEquity) * 100`. -/
def percentChange (e init : JsNum) : JsNum :=
  jsMul (jsDiv (jsSub e init) init) (.fin 100)

/-- The `processedData` computation of `EquityCurve`: for every point,
`initialEquity` is `data[0]?.equity || 0` and `percentChange` is
`((point.equity - initialEquity) / initialEquity) * 100`; there is no guard
against a zero or missing first equity. -/
def processEquityData (data : List EqPoint) : List ChartPoint :=
  data.map fun p =>
    let initialEquity := jsOrZero ((data.head?).bind EqPoint.equity)
    ⟨p.datetime, p.equity, percentChange (toNum p.equity) initialEquity⟩

example :
    processEquityData [⟨"a", some (.fin 100)⟩, ⟨"b", some (.fin 110)⟩] =
      [⟨"a", some (.fin 100), .fin 0⟩, ⟨"b", some (.fin 110), .fin 10⟩] := by
  norm_num [processEquityData, percentChange, jsOrZero, jsTruthy, toNum, jsSub,
    jsDiv, jsMul]

example :
    processEquityData [⟨"a", some (.fin 0)⟩, ⟨"b", some (.fin 110)⟩] =
      [⟨"a", some (.fin 0), .nan⟩, ⟨"b", some (.fin 110), .posInf⟩] := by
  norm_num [processEquityData, percentChange, jsOrZero, jsTruthy, toNum, jsSub,
    jsDiv, jsMul]

/-! ## JSON values and `JSON.parse`

The backtest route parses the stdout of the spawned python process with
`JSON.parse`.  JSON values are modelled with exact rational numbers; the
parser below covers the JSON grammar without exponent notation or unicode
escapes (the inputs the claims evaluate stay inside this fragment, and the
theorems that quantify over all child outcomes do not depend on which
strings parse). -/

/-- A JSON value. -/
inductive Json where
  | null
  | bool (b : Bool)
  | num (q : ℚ)
  | str (s : String)
  | arr (xs : List Json)
  | obj (fields : List (String × Json))
deriving Repr, BEq

/-- Skip JSON whitespace. -/
def skipWs : List Char → List Char
  | c :: cs =>
      if c = ' ' ∨ c = '\n' ∨ c = '\t' ∨ c = '\r' then skipWs cs else c :: cs
  | [] => []

/-- Consume a maximal digit run, returning its value, its length and the
rest. -/
def takeDigits (acc k : Nat) : List Char → Nat × Nat × List Char
  | c :: cs =>
      if c.isDigit then takeDigits (acc * 10 + (c.toNat - 48)) (k + 1) cs
      else (acc, k, c :: cs)
  | [] => (acc, k, [])

/-- Parse the body of a JSON string after the opening quote, handling the
common escapes. -/
def takeStrChars : List Char → Option (List Char × List Char)
  | '"' :: cs => some ([], cs)
  | '\\' :: c :: cs =>
      match takeStrChars cs with
      | some (body, rest) =>
          let e :=
            if c = 'n' then '\n'
            else if c = 't' then '\t'
            else if c = 'r' then '\r'
            else c
          some (e :: body, rest)
      | none => none
  | c :: cs =>
      match takeStrChars cs with
      | some (body, rest) => some (c :: body, rest)
      | none => none
  | [] => none

/-- Parse a JSON number (integer part, optional fraction). -/
def takeNumber (input : List Char) : Option (ℚ × List Char) :=
  let (neg, rest) :=
    match input with
    | '-' :: r => (true, r)
    | r => (false, r)
  match rest with
  | c :: _ =>
      if c.isDigit then
        let (ip, _, r2) := takeDigits 0 0 rest
        match r2 with
        | '.' :: d :: r3 =>
            if d.isDigit then
              let (fp, k, r4) := takeDigits 0 0 (d :: r3)
              let q : ℚ := (ip : ℚ) + (fp : ℚ) / ((10 : ℚ) ^ k)
              some (if neg then -q else q, r4)
            else none
        | _ => some (if neg then -(ip : ℚ) else (ip : ℚ), r2)
      else none
  | [] => none

/-- Parse a comma-separated list of values up to `]`, given a parser `pv`
for one value; fueled. -/
def takeElems (pv : List Char → Option (Json × List Char)) :
    Nat → List Char → Option (List Json × List Char)
  | 0, _ => none
  | n + 1, input =>
      match pv input with
      | none => none
      | some (j, rest) =>
          match skipWs rest with
          | ',' :: r2 =>
              match takeElems pv n r2 with
              | some (xs, r) => some (j :: xs, r)
              | none => none
          | ']' :: r2 => some ([j], r2)
          | _ => none

/-- Parse a comma-separated list of `"key": value` members up to `\x7d`,
given a parser `pv` for one value; fueled. -/
def takeMembers (pv : List Char → Option (Json × List Char)) :
    Nat → List Char → Option (List (String × Json) × List Char)
  | 0, _ => none
  | n + 1, input =>
      match skipWs input with
      | '"' :: r1 =>
          match takeStrChars r1 with
          | none => none
          | some (key, r2) =>
              match skipWs r2 with
              | ':' :: r3 =>
                  match pv r3 with
                  | none => none
                  | some (j, r4) =>
                      match skipWs r4 with
                      | ',' :: r5 =>
                          match takeMembers pv n r5 with
                          | some (fs, r) => some ((String.mk key, j) :: fs, r)
                          | none => none
                      | '}' :: r5 => some ([(String.mk key, j)], r5)
                      | _ => none
              | _ => none
      | _ => none

/-- Parse one JSON value; fueled by the input length. -/
def takeVal : Nat → List Char → Option (Json × List Char)
  | 0, _ => none
  | n + 1, input =>
      match skipWs input with
      | 'n' :: 'u' :: 'l' :: 'l' :: rest => some (.null, rest)
      | 't' :: 'r' :: 'u' :: 'e' :: rest => some (.bool true, rest)
      | 'f' :: 'a' :: 'l' :: 's' :: 'e' :: rest => some (.bool false, rest)
      | '"' :: rest =>
          match takeStrChars rest with
          | some (body, r) => some (.str (String.mk body), r)
          | none => none
      | '[' :: rest =>
          (match skipWs rest with
           | ']' :: r2 => some (.arr [], r2)
           | r2 =>
               match takeElems (takeVal n) n r2 with
               | some (xs, r) => some (.arr xs, r)
               | none => none)
      | '{' :: rest =>
          (match skipWs rest with
           | '}' :: r2 => some (.obj [], r2)
           | r2 =>
               match takeMembers (takeVal n) n r2 with
               | some (fs, r) => some (.obj fs, r)
               | none => none)
      | rest =>
          match takeNumber rest with
          | some (q, r) => some (.num q, r)
          | none => none

/-- `JSON.parse`: the whole input must be one JSON value surrounded by
whitespace. -/
def jsonParse (s : String) : Option Json :=
  let cs := s.toList
  match takeVal (cs.length + 1) cs with
  | some (j, rest) => if skipWs rest = [] then some j else none
  | none => none

example : jsonParse "null" = some .null := rfl
example : jsonParse "not json" = none := rfl
example : jsonParse "" = none := rfl
example : jsonParse "\x7b\x7d" = some (.obj []) := rfl

/-! ## The backtest route (`POST` handler and `runPythonScript`)

`runPythonScript` spawns `python` on the runner script and returns a promise
that settles only when the child emits `close` (with an exit code and the
accumulated stdout/stderr) or `error` (spawn failure).  The child process
behaviour is the environment of the model, captured by `ChildOutcome`;
`neverExits` is the case in which the child never terminates, in which no
event fires and the promise never settles.  There is no timer, kill or
timeout option anywhere in the route. -/

/-- How the spawned python process behaves for one invocation. -/
inductive ChildOutcome where
  | neverExits
  | exited (code : Int) (stdout stderr : String)
  | spawnError (msg : String)
deriving Repr

/-- The fate of the promise returned by `runPythonScript`: never settles,
resolves with parsed JSON, or rejects with an error message. -/
inductive ScriptResult where
  | pending
  | resolved (j : Json)
  | rejected (msg : String)
deriving Repr

/-- `runPythonScript` of `src/unnamed/part_001`: on `close` with a non-zero
code, reject with a message that embeds the full stderr; on code zero, parse
stdout with `JSON.parse` and resolve, or reject when parsing fails (the
engine-specific text of the `JSON.parse` exception is modelled by the fixed
token `SyntaxError`); on a spawn `error` event, reject with the spawn
message.  With a child that never exits the promise stays pending forever:
the function imposes no wall-clock bound of its own. -/
def runPythonScript : ChildOutcome → ScriptResult
  | .neverExits => .pending
  | .exited code out err =>
      if code ≠ 0 then
        .rejected ("Python script exited with code " ++ toString code ++ ": " ++ err)
      else
        match jsonParse out with
        | some j => .resolved j
        | none => .rejected ("Failed to parse Python script output: " ++ "SyntaxError")
  | .spawnError m => .rejected ("Failed to execute Python script: " ++ m)

/-- The parsed body of the backtest request.  The serialized form of
`params` and the argument vector handed to the child are not modelled: no
claim depends on them, and the child behaviour enters through
`ChildOutcome`. -/
structure BacktestRequest where
  dataset : Option String
  timeframe : Option String
  strategy : Option String
  initial_capital : Option ℚ
  custom_code : Option String
deriving Repr

/-- JS truthiness of an optional string field: absent and empty are falsy. -/
def falsyStr : Option String → Bool
  | none => true
  | some s => decide (s = "")

/-- An HTTP response of the backtest route: a 200 carrying the parsed runner
output verbatim, or an error status whose body has exactly an `error` field
and an optional `message` field. -/
inductive ApiResponse where
  | ok (results : Json)
  | err (status : Nat) (error : String) (message : Option String)
deriving Repr

/-- Observable filesystem/process effects of one handler run, in order. -/
inductive Effect where
  | wroteFile (path : String)
  | spawned (script : String)
  | unlinked (path : String)
deriving DecidableEq, Repr

/-- Result of one run of the handler: either the async function is still
awaiting a promise that never settles (no response is ever produced), or it
responded.  Both carry the temporary files created by this run that still
exist, and the effect trace. -/
inductive HandlerResult where
  | blocked (tmpFiles : List String) (effects : List Effect)
  | responded (resp : ApiResponse) (tmpFiles : List String) (effects : List Effect)
deriving Repr

/-- The temp directory `path.join` of `process.cwd()` and `tmp`, as a
cwd-relative string. -/
def tempDir : String := "tmp"

/-- The temporary file written for a custom strategy run:
`` `custom_strategy_${uniqueId}.py` `` under the temp directory. -/
def customStrategyPath (uid : String) : String :=
  tempDir ++ "/custom_strategy_" ++ uid ++ ".py"

/-- The runner script path `path.join` of `process.cwd()` and `lib/backtest_runner.py`. -/
def backendScript : String := "lib/backtest_runner.py"

/-- The backtest `POST` handler of `src/unnamed/part_001`: validates the
`dataset` and `strategy` fields (each missing field answers 400 before any
file is written or process spawned); when the strategy equals `custom` with truthy
`custom_code` it writes the code to a fresh temp file; it then awaits
`runPythonScript`.  Only after a successful await is the temp file unlinked
(the unlink is wrapped in its own try/catch whose failure is only logged);
every rejection reaches the outer catch, which answers
a body holding the error kind `Failed to run backtest` and a `message` field, status 500,
performs no cleanup.  `uid` stands for the generated `uuidv4()`. -/
def backtestPOST (req : BacktestRequest) (uid : String) (child : ChildOutcome) :
    HandlerResult :=
  if falsyStr req.dataset then
    .responded (.err 400 "Dataset is required" none) [] []
  else if falsyStr req.strategy then
    .responded (.err 400 "Strategy is required" none) [] []
  else
    let strategyPath : Option String :=
      if req.strategy = some "custom" ∧ falsyStr req.custom_code = false then
        some (customStrategyPath uid)
      else none
    let files0 : List String :=
      match strategyPath with
      | some p => [p]
      | none => []
    let effs0 : List Effect :=
      (match strategyPath with
       | some p => [.wroteFile p]
       | none => []) ++ [.spawned backendScript]
    match runPythonScript child with
    | .pending => .blocked files0 effs0
    | .rejected m =>
        .responded (.err 500 "Failed to run backtest" (some m)) files0 effs0
    | .resolved j =>
        match strategyPath with
        | some p => .responded (.ok j) (files0.erase p) (effs0 ++ [.unlinked p])
        | none => .responded (.ok j) files0 effs0

/-- The temporary files of the run that still exist when the handler ends
(or hangs). -/
def tmpFilesAfter : HandlerResult → List String
  | .blocked fs _ => fs
  | .responded _ fs _ => fs

/-- The effect trace of the run. -/
def effectsOf : HandlerResult → List Effect
  | .blocked _ es => es
  | .responded _ _ es => es

/-- The error kind surfaced by the response, when the run responded with an
error body. -/
def surfacedErrorKind : HandlerResult → Option String
  | .responded (.err _ e _) _ _ => some e
  | _ => none

/-- Whether the surfaced error kind is the string `StrategyTimeoutError`. -/
def surfacesTimeoutError : HandlerResult → Bool
  | .responded (.err _ e _) _ _ => decide (e = "StrategyTimeoutError")
  | _ => false

/-- The `message` field of an error response body, when present. -/
def surfacedMessage : HandlerResult → Option String
  | .responded (.err _ _ m) _ _ => m
  | _ => none

/-- The complete error body (status, error, message) of an error response. -/
def surfacedErrorBody : HandlerResult → Option (Nat × String × Option String)
  | .responded (.err st e m) _ _ => some (st, e, m)
  | _ => none

/-- Whether the run answered 200 with results. -/
def isOkResponse : HandlerResult → Bool
  | .responded (.ok _) _ _ => true
  | _ => false

/-- Naive substring search over character lists. -/
def listContains (pat : List Char) : List Char → Bool
  | [] => decide (pat = [])
  | c :: tail => pat.isPrefixOf (c :: tail) || listContains pat tail

/-- Whether `pat` occurs as a substring of `s`. -/
def containsSub (s pat : String) : Bool := listContains pat.toList s.toList

/-- A request running a custom strategy whose user code loops forever
(Scenario D of the spec). -/
def reqInfinite : BacktestRequest :=
  ⟨some "BTCUSD15m2023101T00_00.csv", some "15m", some "custom", none,
   some "def custom_strategy(data, params):\n    while True:\n        pass"⟩

/-- A request running a short custom strategy. -/
def reqCustom : BacktestRequest :=
  ⟨some "BTCUSD15m2023101T00_00.csv", some "15m", some "custom", none,
   some "def custom_strategy(data, params):\n    return [0] * len(data)"⟩

/-- A python stderr trace as produced by an exception inside user code; it
names the absolute host path of the temporary strategy file. -/
def pyTraceback : String :=
  "Traceback (most recent call last):\n  File \"/home/user/crypto-strategy-backtester/tmp/custom_strategy_u1.py\", line 2, in custom_strategy\nValueError: bad input"

example :
    backtestPOST reqInfinite "u1" .neverExits =
      .blocked [customStrategyPath "u1"]
        [.wroteFile (customStrategyPath "u1"), .spawned backendScript] := rfl

example :
    tmpFilesAfter (backtestPOST reqCustom "u1" (.exited 1 "" "boom")) =
      [customStrategyPath "u1"] := rfl

example :
    tmpFilesAfter (backtestPOST reqCustom "u1" (.exited 0 "\x7b\x7d" "")) = [] := rfl

/-! ## Signal validation of the python engine (spec-modelled)

The python backend (`lib/backtest_engine.py`, `lib/backtest_runner.py`) is
referenced by the route but is not under `src/`; the validation of a custom
strategy result is modelled here from the spec. -/

/-- One element of the sequence returned by the user strategy: a numeric
value, or something non-numeric (carried with a rendering of what it was). -/
inductive SigVal where
  | num (q : ℚ)
  | nonNumeric (txt : String)
deriving DecidableEq, Repr

/-- A signal element violating the contract: non-numeric, or a number
outside `{-1, 0, 1}`. -/
def badSig : SigVal → Bool
  | .nonNumeric _ => true
  | .num q => decide (q ≠ -1 ∧ q ≠ 0 ∧ q ≠ 1)

/-- Prefix test on strings (structural, kernel-reducible). -/
def strStartsWith (s pre : String) : Bool :=
  List.isPrefixOf pre.toList s.toList

/-- Modelled from the spec: the per-element validation of the sandboxed
strategy output performed by the python engine, which is not under `src/`.
Spec 4.2/4.3: non-numeric values or values outside `\x7b-1,0,1\x7d` fail
with `StrategyContractError` rather than being silently coerced; a valid
sequence is kept unchanged as exact position intents. -/
def validStep (v : SigVal) (acc : Except String (List Int)) :
    Except String (List Int) :=
  match acc, v with
  | .error e, _ => .error e
  | .ok xs, .num q =>
      if q = -1 then .ok (-1 :: xs)
      else if q = 0 then .ok (0 :: xs)
      else if q = 1 then .ok (1 :: xs)
      else .error "StrategyContractError: signal value outside -1,0,1"
  | .ok _, .nonNumeric _ => .error "StrategyContractError: non-numeric signal value"

/-- Modelled from the spec (continued): fold `validStep` over the output
sequence. -/
def validateVals : List SigVal → Except String (List Int)
  | [] => .ok []
  | v :: rest => validStep v (validateVals rest)

/-- Modelled from the spec: the whole-output validation of the sandbox
(spec 4.3) — a length mismatch with the bar series, a non-numeric value, or
a value outside `\x7b-1,0,1\x7d` all fail with `StrategyContractError`; only
a fully valid sequence is accepted. -/
def validateSignals (nBars : Nat) (sig : List SigVal) : Except String (List Int) :=
  if sig.length ≠ nBars then .error "StrategyContractError: signal length mismatch"
  else validateVals sig

/-- The claim side condition: the strategy output is malformed (wrong
length, non-numeric element, or out-of-range element). -/
def malformedSignals (nBars : Nat) (sig : List SigVal) : Bool :=
  decide (sig.length ≠ nBars) || sig.any badSig

/-- Whether an engine result is a success. -/
def exceptIsOk : Except String (List Int) → Bool
  | .ok _ => true
  | .error _ => false

/-- Modelled from the spec: a failing engine run surfaces its typed error as
a non-zero exit of the runner process with the error text on stderr (spec 7:
component failures are returned as typed errors, never as partial output, so
a failed run prints no result JSON on stdout). -/
def contractFailureOutcome (e : String) : ChildOutcome := .exited 1 "" e

example : validateSignals 2 [.num 0, .num 2] =
    .error "StrategyContractError: signal value outside -1,0,1" := rfl
example : validateSignals 3 [.num 0, .num 1] =
    .error "StrategyContractError: signal length mismatch" := rfl
example : validateSignals 2 [.num 0, .nonNumeric "None"] =
    .error "StrategyContractError: non-numeric signal value" := rfl
example : validateSignals 2 [.num 1, .num (-1)] = .ok [1, -1] := rfl

/-! ## Shared helper lemmas -/

/-- Writing a file makes its bytes the stored content at that path,
whether or not the path was present before (silent replacement). -/
lemma storeLookup_storeWrite (store : FileStore) (p : List String) (b : List Nat) :
    storeLookup (storeWrite store p b) p = some b := by
  induction store with
  | nil => simp [storeWrite, storeLookup]
  | cons kv rest ih =>
      obtain ⟨q, ob⟩ := kv
      by_cases h : q = p
      · simp [storeWrite, storeLookup, h]
      · simp [storeWrite, storeLookup, h, ih]

/-- With a nonzero finite initial equity, the percent change of a finite
equity value is the finite rational `((e - init) / init) * 100`. -/
lemma percentChange_fin (qp q0 : ℚ) (h : q0 ≠ 0) :
    percentChange (.fin qp) (.fin q0) = .fin ((qp - q0) / q0 * 100) := by
  simp [percentChange, jsSub, jsDiv, jsMul, h]

/-- With a zero initial equity, the percent change of any equity value is
non-finite (`NaN` or a signed infinity). -/
lemma percentChange_zero_init (e : JsNum) :
    (percentChange e (.fin 0)).isFinite = false := by
  cases e with
  | fin q =>
      simp only [percentChange, jsSub, jsDiv, jsMul]
      split_ifs <;> norm_num [jsMul, JsNum.isFinite]
  | posInf => norm_num [percentChange, jsSub, jsDiv, jsMul, JsNum.isFinite]
  | negInf => norm_num [percentChange, jsSub, jsDiv, jsMul, JsNum.isFinite]
  | nan => norm_num [percentChange, jsSub, jsDiv, jsMul, JsNum.isFinite]

/-- Every error the element-wise validation can produce is a
`StrategyContractError`. -/
lemma validateVals_error_kind : ∀ (l : List SigVal) (e : String),
    validateVals l = .error e → strStartsWith e "StrategyContractError" = true := by
  intro l
  induction l with
  | nil => intro e h ; simp [validateVals] at h
  | cons v rest ih =>
      intro e h
      rw [validateVals] at h
      cases hrest : validateVals rest with
      | error e2 =>
          rw [hrest] at h
          simp only [validStep] at h
          injection h with h
          subst h
          exact ih e2 hrest
      | ok xs =>
          rw [hrest] at h
          cases v with
          | num q =>
              simp only [validStep] at h
              by_cases h1 : q = -1
              · simp [h1] at h
              · by_cases h2 : q = 0
                · simp [h1, h2] at h
                · by_cases h3 : q = 1
                  · rw [if_neg h1, if_neg h2, if_pos h3] at h
                    simp at h
                  · rw [if_neg h1, if_neg h2, if_neg h3] at h
                    injection h with h
                    subst h
                    decide
          | nonNumeric t =>
              simp only [validStep] at h
              injection h with h
              subst h
              decide

/-- A sequence the element-wise validation accepts has no bad element. -/
lemma validateVals_ok_no_bad : ∀ (l : List SigVal) (xs : List Int),
    validateVals l = .ok xs → l.any badSig = false := by
  intro l
  induction l with
  | nil => intro xs _ ; rfl
  | cons v rest ih =>
      intro xs h
      rw [validateVals] at h
      cases hrest : validateVals rest with
      | error e2 => rw [hrest] at h ; simp [validStep] at h
      | ok ys =>
          rw [hrest] at h
          cases v with
          | num q =>
              simp only [validStep] at h
              by_cases h1 : q = -1
              · simp only [List.any_cons, ih ys hrest, Bool.or_false]
                simp [badSig, h1]
              · by_cases h2 : q = 0
                · simp only [List.any_cons, ih ys hrest, Bool.or_false]
                  simp [badSig, h2]
                · by_cases h3 : q = 1
                  · simp only [List.any_cons, ih ys hrest, Bool.or_false]
                    simp [badSig, h3]
                  · simp [h1, h2, h3] at h
          | nonNumeric t => simp [validStep] at h

/-- A sequence holding a bad element is rejected by the element-wise
validation. -/
lemma validateVals_error_of_bad : ∀ (l : List SigVal),
    l.any badSig = true → exceptIsOk (validateVals l) = false := by
  intro l
  induction l with
  | nil => intro h ; simp at h
  | cons v rest ih =>
      intro h
      rw [validateVals]
      cases hrest : validateVals rest with
      | error e2 => simp [validStep, exceptIsOk]
      | ok ys =>
          have hrestbad : rest.any badSig = false := validateVals_ok_no_bad rest ys hrest
          rw [List.any_cons, hrestbad, Bool.or_false] at h
          cases v with
          | num q =>
              rw [badSig] at h
              have h123 : q ≠ -1 ∧ q ≠ 0 ∧ q ≠ 1 := of_decide_eq_true h
              simp [validStep, h123.1, h123.2.1, h123.2.2, exceptIsOk]
          | nonNumeric t => simp [validStep, exceptIsOk]

/-! ## Claims -/

/-- C5: the upload route joins the unsanitized client filename onto
`public/data`, so a filename containing `..` resolves outside the data
directory and is written there, and an upload whose name resolves to an
existing entry silently overwrites the stored bytes. -/
theorem claim_C5 :
    (lowerStr (extname "../evil.csv") = ".csv"
      ∧ resolvedUploadPath "../evil.csv" = ["public", "evil.csv"]
      ∧ isUnderDataDir (resolvedUploadPath "../evil.csv") = false
      ∧ (uploadPOST (some ⟨"../evil.csv", [1, 2]⟩) []).2 =
          [(["public", "evil.csv"], [1, 2])])
  ∧ ∀ (store : FileStore) (f : UploadFile),
      lowerStr (extname f.name) = ".csv" →
      storeLookup (uploadPOST (some f) store).2 (resolvedUploadPath f.name) =
        some f.bytes := by
  constructor
  · exact ⟨by decide, by decide, by decide, by decide⟩
  · intro store f h
    simp only [uploadPOST, h]
    simp [storeLookup_storeWrite]

/-- Witness for C5 at a concrete store holding the dataset `BTCUSD.csv`:
re-uploading under the same name replaces the stored bytes. -/
theorem claim_C5_witness :
    storeLookup
      (uploadPOST (some ⟨"BTCUSD.csv", [9, 9]⟩)
        [(resolvedUploadPath "BTCUSD.csv", [1])]).2
      (resolvedUploadPath "BTCUSD.csv") = some [9, 9] :=
  claim_C5.2 [(resolvedUploadPath "BTCUSD.csv", [1])] ⟨"BTCUSD.csv", [9, 9]⟩ (by decide)

/-- C7 counterexample: the claim fails in both directions.  The filename
`.csv` ends in `.csv` case-insensitively, yet the route rejects it with 400
and writes nothing, because `path.extname` treats a leading dot as starting
a dotfile name, not an extension; and the filename `x.csv/` does not end in
`.csv` (it ends in a separator), yet its extname is `.csv` — trailing
separators are ignored — so the route does not take the 400 branch for it. -/
theorem claim_C7_counterexample :
    endsWithCI ".csv" ".csv" = true
  ∧ uploadPOST (some ⟨".csv", [1, 2, 3]⟩) [] =
      (.err 400 "Only CSV files are allowed", [])
  ∧ endsWithCI "x.csv/" ".csv" = false
  ∧ lowerStr (extname "x.csv/") = ".csv" := by
  exact ⟨by decide, by decide, by decide, by decide⟩

/-- C7 (amended): acceptance is keyed on `path.extname(name).toLowerCase()`
being `.csv`, where extname takes the extension of the last path component
with trailing separators ignored, and is empty for a dotfile component or
`..`.  A file whose extname is not `.csv` is answered 400 with the store
unchanged; a file whose extname is `.csv` and whose name holds no path
separator (the shape a file picker supplies; separator-carrying names hand
the filesystem a path this flat-store model does not cover) is stored keyed
by the original filename and answered with that filename and the byte
count. -/
theorem claim_C7 : ∀ (f : UploadFile) (store : FileStore),
    (lowerStr (extname f.name) ≠ ".csv" →
        uploadPOST (some f) store = (.err 400 "Only CSV files are allowed", store))
  ∧ (hasSep f.name = false → lowerStr (extname f.name) = ".csv" →
        uploadPOST (some f) store =
          (.ok f.name f.bytes.length ("/data/" ++ f.name),
           storeWrite store (resolvedUploadPath f.name) f.bytes)) := by
  intro f store
  constructor
  · intro h
    simp [uploadPOST, h]
  · intro _ h
    simp [uploadPOST, h]

/-- Witness for C7: a `.txt` upload is rejected with nothing written; an
uppercase `.CSV` upload is stored and answered with name and byte count. -/
theorem claim_C7_witness :
    uploadPOST (some ⟨"notes.txt", [7]⟩) [] =
      (.err 400 "Only CSV files are allowed", [])
  ∧ uploadPOST (some ⟨"Prices.CSV", [1, 2]⟩) [] =
      (.ok "Prices.CSV" 2 "/data/Prices.CSV",
       [(["public", "data", "Prices.CSV"], [1, 2])]) := by
  constructor
  · exact (claim_C7 ⟨"notes.txt", [7]⟩ []).1 (by decide)
  · have h := (claim_C7 ⟨"Prices.CSV", [1, 2]⟩ []).2 (by decide) (by decide)
    rw [h]
    decide

/-- C8: the metrics panel renders `N/A` for a null or absent
`avg_win_loss_ratio` (the no-losing-trades case) without raising, and
renders a numeric value as its two-decimal fixed notation. -/
theorem claim_C8 : ∀ (m : Report),
    ((m.avg_win_loss_ratio = .null ∨ m.avg_win_loss_ratio = .undef) →
        metricsPanelAvgWinLoss m = "N/A")
  ∧ (∀ q : ℚ, m.avg_win_loss_ratio = .num q →
        metricsPanelAvgWinLoss m = jsToFixed 2 q) := by
  intro m
  constructor
  · rintro (h | h) <;> simp [metricsPanelAvgWinLoss, formatNumber, h]
  · intro q h
    simp [metricsPanelAvgWinLoss, formatNumber, h, String.empty_append,
      String.append_empty]

/-- Witness for C8: a report with no losing trades renders `N/A`; a report
with ratio `7/2` renders `3.50`. -/
theorem claim_C8_witness :
    metricsPanelAvgWinLoss
      ⟨.num 15, .num 12, .num (-5), .num 1, .num 1, .num (1/2), .num 10,
       .null, .num 10000, .num 11000⟩ = "N/A"
  ∧ metricsPanelAvgWinLoss
      ⟨.num 15, .num 12, .num (-5), .num 1, .num 1, .num (1/2), .num 10,
       .num (7/2), .num 10000, .num 11000⟩ = "3.50" := by
  constructor
  · exact (claim_C8 _).1 (Or.inl rfl)
  · have hfloor : (⌊|(7 : ℚ)/2| * (10 : ℚ) ^ 2 + 1/2⌋ : ℤ) = 350 := by
      rw [show |(7 : ℚ)/2| = 7/2 from abs_of_nonneg (by norm_num), Int.floor_eq_iff]
      norm_num
    have hneg : (decide ((7 : ℚ)/2 < 0)) = false := by norm_num
    rw [(claim_C8 _).2 (7/2) rfl, jsToFixed, hfloor, hneg]
    decide

/-- C9: the equity-curve view derives each percent change as
`((equity - firstEquity) / firstEquity) * 100` with `firstEquity` equal to
`data[0]?.equity || 0`.  When the first equity is a positive number, every
point with numeric equity gets a finite percent change and the first point
gets exactly `0`; when the first equity is `0` or missing, every point gets
a non-finite value (signed infinity or `NaN`) — the code computes through
the division by zero with no guard and no error. -/
theorem claim_C9 : ∀ (data : List EqPoint) (p0 : EqPoint),
    data.head? = some p0 →
    (∀ q0 : ℚ, p0.equity = some (.fin q0) → 0 < q0 →
        ((∀ p ∈ data, (toNum p.equity).isFinite = true) →
            ∀ cp ∈ processEquityData data, cp.percentChange.isFinite = true)
        ∧ (processEquityData data).head? = some ⟨p0.datetime, p0.equity, .fin 0⟩)
  ∧ ((p0.equity = some (.fin 0) ∨ p0.equity = none) →
        ∀ cp ∈ processEquityData data, cp.percentChange.isFinite = false) := by
  intro data p0 h0
  constructor
  · intro q0 hq0 hpos
    have hq0ne : q0 ≠ 0 := ne_of_gt hpos
    have hinit : jsOrZero ((data.head?).bind EqPoint.equity) = .fin q0 := by
      rw [h0]
      simp [jsOrZero, jsTruthy, hq0, hq0ne]
    constructor
    · intro hfin cp hcp
      simp only [processEquityData, List.mem_map] at hcp
      obtain ⟨p, hp, rfl⟩ := hcp
      have := hfin p hp
      simp only [hinit]
      cases he : p.equity with
      | none => rw [he] at this ; simp [toNum, JsNum.isFinite] at this
      | some v =>
          rw [he] at this
          cases v with
          | fin qp => simp [toNum, percentChange_fin qp q0 hq0ne, JsNum.isFinite]
          | posInf => simp [toNum, JsNum.isFinite] at this
          | negInf => simp [toNum, JsNum.isFinite] at this
          | nan => simp [toNum, JsNum.isFinite] at this
    · cases data with
      | nil => simp at h0
      | cons d rest =>
          have hd : d = p0 := by simpa using h0
          subst hd
          simp only [processEquityData, List.map_cons, List.head?_cons,
            Option.some.injEq, Option.some_bind]
          rw [hq0]
          simp only [toNum, jsOrZero, jsTruthy]
          rw [if_pos (decide_eq_true hq0ne), percentChange_fin q0 q0 hq0ne]
          simp
  · intro hz cp hcp
    have hinit : jsOrZero ((data.head?).bind EqPoint.equity) = .fin 0 := by
      rw [h0]
      rcases hz with h | h <;> simp [h, jsOrZero, jsTruthy]
    simp only [processEquityData, List.mem_map] at hcp
    obtain ⟨p, hp, rfl⟩ := hcp
    simp only [hinit]
    exact percentChange_zero_init (toNum p.equity)

/-- Witness for C9 at a two-point curve starting from equity 100: the first
chart point carries percent change exactly `0`. -/
theorem claim_C9_witness :
    (processEquityData
        [⟨"2023-01-01 00:00:00", some (.fin 100)⟩,
         ⟨"2023-01-01 00:15:00", some (.fin 110)⟩]).head? =
      some ⟨"2023-01-01 00:00:00", some (.fin 100), .fin 0⟩ :=
  ((claim_C9
      [⟨"2023-01-01 00:00:00", some (.fin 100)⟩,
       ⟨"2023-01-01 00:15:00", some (.fin 110)⟩]
      ⟨"2023-01-01 00:00:00", some (.fin 100)⟩ rfl).1 100 rfl
      (by norm_num)).2

/-- C1: the route has no wall-clock bound and no `StrategyTimeoutError`.
With a child process that never exits (the visible behaviour of an
infinite-loop custom strategy under a runner that does not kill it), the
handler blocks forever after writing the temp file and spawning — it never
produces any response; and no response the handler can ever produce, for any
request and any child behaviour, carries the error kind
`StrategyTimeoutError`. -/
theorem claim_C1 :
    backtestPOST reqInfinite "u1" .neverExits =
      .blocked [customStrategyPath "u1"]
        [.wroteFile (customStrategyPath "u1"), .spawned backendScript]
  ∧ ∀ (req : BacktestRequest) (uid : String) (child : ChildOutcome),
      surfacesTimeoutError (backtestPOST req uid child) = false := by
  constructor
  · rfl
  · intro req uid child
    unfold backtestPOST
    split
    · rfl
    · split
      · rfl
      · cases h : runPythonScript child with
        | pending => simp [h, surfacesTimeoutError]
        | rejected m => simp [h, surfacesTimeoutError]
        | resolved j =>
            simp only [h]
            split <;> rfl

/-- C2: the temp strategy file of a custom run is unlinked only after a
successful await: it is gone on the success path, but it remains on every
failure path — non-zero exit of the child, unparseable stdout, and spawn
failure. -/
theorem claim_C2 :
    backtestPOST reqCustom "u1" (.exited 0 "\x7b\x7d" "") =
      .responded (.ok (.obj [])) []
        [.wroteFile (customStrategyPath "u1"), .spawned backendScript,
         .unlinked (customStrategyPath "u1")]
  ∧ tmpFilesAfter
      (backtestPOST reqCustom "u1" (.exited 1 "" "Exception in user code")) =
      [customStrategyPath "u1"]
  ∧ tmpFilesAfter (backtestPOST reqCustom "u1" (.exited 0 "not json" "")) =
      [customStrategyPath "u1"]
  ∧ tmpFilesAfter (backtestPOST reqCustom "u1" (.spawnError "spawn python ENOENT")) =
      [customStrategyPath "u1"] :=
  ⟨rfl, rfl, rfl, rfl⟩

/-- C3: when the child exits non-zero, the `message` of the 500 body embeds the
stderr of the child verbatim; in particular a python traceback naming the host
path of the temp strategy file reaches the response body unredacted. -/
theorem claim_C3 :
    (∀ (uid out err : String),
        backtestPOST reqCustom uid (.exited 1 out err) =
          .responded
            (.err 500 "Failed to run backtest"
              (some ("Python script exited with code " ++ toString (1 : Int) ++
                ": " ++ err)))
            [customStrategyPath uid]
            [.wroteFile (customStrategyPath uid), .spawned backendScript])
  ∧ containsSub
      ((surfacedMessage (backtestPOST reqCustom "u1" (.exited 1 "" pyTraceback))).getD "")
      "/home/user/crypto-strategy-backtester/tmp/custom_strategy_u1.py" = true := by
  constructor
  · intro uid out err
    rfl
  · decide

/-- C6: a request with a falsy `dataset` or `strategy` is answered 400 with
an empty effect trace — nothing written, nothing spawned; and every run
whose await rejects is answered with status 500 and a body holding exactly
the error kind `Failed to run backtest` and the rejection message — never a
200 with results. -/
theorem claim_C6 : ∀ (req : BacktestRequest) (uid : String) (child : ChildOutcome),
    (falsyStr req.dataset = true →
        backtestPOST req uid child =
          .responded (.err 400 "Dataset is required" none) [] [])
  ∧ (falsyStr req.dataset = false → falsyStr req.strategy = true →
        backtestPOST req uid child =
          .responded (.err 400 "Strategy is required" none) [] [])
  ∧ (∀ m, runPythonScript child = .rejected m →
        falsyStr req.dataset = false → falsyStr req.strategy = false →
        surfacedErrorBody (backtestPOST req uid child) =
            some (500, "Failed to run backtest", some m)
          ∧ isOkResponse (backtestPOST req uid child) = false) := by
  intro req uid child
  refine ⟨?_, ?_, ?_⟩
  · intro h
    simp [backtestPOST, h]
  · intro h1 h2
    simp [backtestPOST, h1, h2]
  · intro m hm h1 h2
    simp [backtestPOST, h1, h2, hm, surfacedErrorBody, isOkResponse]

/-- Witness for C6: the three branches at concrete requests — missing
dataset, missing strategy, and a failing spawn. -/
theorem claim_C6_witness :
    backtestPOST ⟨none, none, some "sma_crossover", none, none⟩ "u" .neverExits =
      .responded (.err 400 "Dataset is required" none) [] []
  ∧ backtestPOST ⟨some "BTCUSD.csv", none, none, none, none⟩ "u" .neverExits =
      .responded (.err 400 "Strategy is required" none) [] []
  ∧ surfacedErrorBody
      (backtestPOST ⟨some "BTCUSD.csv", none, some "sma_crossover", none, none⟩ "u"
        (.spawnError "boom")) =
      some (500, "Failed to run backtest",
        some ("Failed to execute Python script: " ++ "boom")) := by
  refine ⟨?_, ?_, ?_⟩
  · exact (claim_C6 ⟨none, none, some "sma_crossover", none, none⟩ "u" .neverExits).1 rfl
  · exact (claim_C6 ⟨some "BTCUSD.csv", none, none, none, none⟩ "u" .neverExits).2.1
      rfl rfl
  · exact ((claim_C6 ⟨some "BTCUSD.csv", none, some "sma_crossover", none, none⟩ "u"
      (.spawnError "boom")).2.2 ("Failed to execute Python script: " ++ "boom")
      rfl rfl rfl).1

/-- C4: whenever the custom strategy output is malformed — wrong length, a
non-numeric element, or a value outside `\x7b-1,0,1\x7d` — the
(spec-modelled) engine validation rejects it with a
`StrategyContractError` instead of coercing it, and the route turns the
failed run into an error response, never into a 200 with results. -/
theorem claim_C4 : ∀ (nBars : Nat) (sig : List SigVal),
    malformedSignals nBars sig = true →
    exceptIsOk (validateSignals nBars sig) = false
  ∧ (∀ e, validateSignals nBars sig = .error e →
        strStartsWith e "StrategyContractError" = true)
  ∧ (∀ (uid e : String),
        isOkResponse (backtestPOST reqCustom uid (contractFailureOutcome e)) = false
      ∧ surfacedErrorKind (backtestPOST reqCustom uid (contractFailureOutcome e)) =
          some "Failed to run backtest") := by
  intro nBars sig hmal
  refine ⟨?_, ?_, ?_⟩
  · rw [validateSignals]
    by_cases hlen : sig.length ≠ nBars
    · simp [hlen, exceptIsOk]
    · simp only [hlen, if_false]
      rw [malformedSignals] at hmal
      rw [decide_eq_false hlen, Bool.false_or] at hmal
      exact validateVals_error_of_bad sig hmal
  · intro e he
    rw [validateSignals] at he
    by_cases hlen : sig.length ≠ nBars
    · rw [if_pos hlen] at he
      cases he
      decide
    · rw [if_neg hlen] at he
      exact validateVals_error_kind sig e he
  · intro uid e
    exact ⟨rfl, rfl⟩

/-- Witness for C4: a two-element output with the out-of-range value `2` is
rejected, and the corresponding failed run is answered with the 500 error
kind, not results. -/
theorem claim_C4_witness :
    exceptIsOk (validateSignals 2 [SigVal.num 2, SigVal.num 0]) = false
  ∧ surfacedErrorKind
      (backtestPOST reqCustom "u4"
        (contractFailureOutcome "StrategyContractError: signal value outside -1,0,1")) =
      some "Failed to run backtest" := by
  constructor
  · exact (claim_C4 2 [SigVal.num 2, SigVal.num 0] (by decide)).1
  · exact ((claim_C4 2 [SigVal.num 2, SigVal.num 0] (by decide)).2.2 "u4"
      "StrategyContractError: signal value outside -1,0,1").2

end Backtester
